import Mathlib

/-!
Verification of the Astrbook moderation pipeline, floor allocator, cascade
deleter and configuration cache, shallowly embedded from
`server/app/moderation.py`, `server/app/routers/replies.py`,
`server/app/routers/threads.py` and `server/app/routers/admin.py`.

Modelling conventions:
* JSON values are an inductive `Json`; JSON numbers are modelled as integers
  (the classifier protocol only ever uses integer ids).
* `json.loads` on the cleaned response text is abstracted as an
  `Option Json` (`none` = the call raised `json.JSONDecodeError`).
* Python exceptions relevant to the parser are the inductive `PyErr`:
  `int(x)` raises `TypeError` on lists/dicts/None (caught by the parser's
  `except` clause) and `ValueError` on a non-numeric string (NOT caught —
  it propagates to the caller of `_parse_batch_result`).
* Database rows are Lean structures; a database state is lists of rows plus
  the settings key/value store and id counters.  Uncommitted ORM sessions
  that fail are modelled by returning an error outcome and leaving the
  persisted state unchanged.
-/

/-- JSON values.  Numbers are modelled as integers; objects are association
lists of string keys (after `json.loads`, keys are unique / last wins). -/
inductive Json where
  | null : Json
  | bool (b : Bool) : Json
  | num (n : Int) : Json
  | str (s : String) : Json
  | arr (elems : List Json) : Json
  | obj (fields : List (String × Json)) : Json

/-- Python exceptions raised while converting a declared `id` with `int(...)`:
`TypeError` (lists/dicts) is caught by `_parse_batch_result`'s `except`
clause, `ValueError` (non-numeric strings) is not. -/
inductive PyErr where
  | typeErr : PyErr
  | valueErr : PyErr
deriving DecidableEq, Repr

/-- `dict.get(k)`: the value of the last binding of `k`, if any
(`json.loads` keeps the last duplicate key, like repeated dict assignment). -/
def objGet (fields : List (String × Json)) (k : String) : Option Json :=
  (fields.filter (fun p => p.1 == k)).getLast?.map (fun p => p.2)

/-- Python truthiness of a JSON value. -/
def truthy : Json → Bool
  | Json.null => false
  | Json.bool b => b
  | Json.num n => n != 0
  | Json.str s => s != ""
  | Json.arr l => !l.isEmpty
  | Json.obj l => !l.isEmpty

/-- ASCII whitespace stripped by Python `int(...)`. -/
def isPySpace (c : Char) : Bool :=
  c == ' ' || c == '\t' || c == '\n' || c == '\r' || c == '\x0b' || c == '\x0c'

/-- The value of a non-empty all-digit character run. -/
def digitsVal (cs : List Char) : Option Nat :=
  if cs.isEmpty then none
  else if cs.all (fun c => c.isDigit) then
    some (cs.foldl (fun acc c => acc * 10 + (c.toNat - 48)) 0)
  else none

/-- Python `int(s)` on a string: strip surrounding whitespace, optional
sign, decimal digits; anything else raises `ValueError` (`none` here).
(Underscore separators accepted by CPython are not modelled.) -/
def pyIntStr (s : String) : Option Int :=
  let cs := ((s.toList.dropWhile isPySpace).reverse.dropWhile isPySpace).reverse
  match cs with
  | '+' :: rest => (digitsVal rest).map Int.ofNat
  | '-' :: rest => (digitsVal rest).map (fun n => -(n : Int))
  | _ => (digitsVal cs).map Int.ofNat

/-- Python `int(x)` on a JSON value.  `bool` is an `int` subclass in Python. -/
def pyIntOfJson : Json → Except PyErr Int
  | Json.num n => Except.ok n
  | Json.bool b => Except.ok (if b then 1 else 0)
  | Json.str s =>
      match pyIntStr s with
      | some n => Except.ok n
      | none => Except.error PyErr.valueErr
  | Json.null => Except.error PyErr.typeErr
  | Json.arr _ => Except.error PyErr.typeErr
  | Json.obj _ => Except.error PyErr.typeErr

/-- Python `str(x)` rendering used when a verdict's raw `reason` value is
interpolated into a notification preview.  Container renderings are
abridged: no claim inspects them. -/
def pyStr : Json → String
  | Json.null => "None"
  | Json.bool b => if b then "True" else "False"
  | Json.num n => toString n
  | Json.str s => s
  | Json.arr _ => "[...]"
  | Json.obj _ => "\x7b...\x7d"

/-- `ModerationResult` dataclass (moderation.py).  `category` and `reason`
keep the raw JSON values the classifier declared (Python stores them
untyped); `passed` stores the truthiness of the declared value, which is
the only way the code ever reads it. -/
structure ModerationResult where
  passed : Bool
  category : Json := Json.str "none"
  reason : Json := Json.str ""
  error : Option String := none

/-- The fail-open default verdict `ModerationResult(passed=True)`. -/
def passedDefault : ModerationResult := { passed := true }

/-- One verdict dict from the response array (`item.get("passed", True)`,
`item.get("category", "none")`, `item.get("reason", "")`). -/
def verdictOfObj (fields : List (String × Json)) : ModerationResult :=
  { passed := truthy ((objGet fields "passed").getD (Json.bool true))
    category := (objGet fields "category").getD (Json.str "none")
    reason := (objGet fields "reason").getD (Json.str "") }

/-- Building `result_map` from the response array: non-dict entries are
skipped, entries whose `id` is absent or JSON null are skipped
(`idx is not None`), otherwise the id goes through `int(...)`; the
resulting association list keeps insertion order (later entries overwrite
earlier ones on lookup, like repeated dict assignment). -/
def buildResultMap : List Json → Except PyErr (List (Int × ModerationResult))
  | [] => Except.ok []
  | item :: rest =>
    match item with
    | Json.obj fields =>
      match objGet fields "id" with
      | none => buildResultMap rest
      | some Json.null => buildResultMap rest
      | some idv =>
        match pyIntOfJson idv with
        | Except.error e => Except.error e
        | Except.ok k =>
          match buildResultMap rest with
          | Except.error e => Except.error e
          | Except.ok m => Except.ok ((k, verdictOfObj fields) :: m)
    | _ => buildResultMap rest

/-- Lookup in `result_map`: the LAST binding of the key wins, matching
Python dict assignment semantics. -/
def lookupLast : List (Int × ModerationResult) → Int → Option ModerationResult
  | [], _ => none
  | p :: rest, k =>
    match lookupLast rest k with
    | some v => some v
    | none => if p.1 == k then some p.2 else none

/-- `ContentModerator._parse_batch_result` (moderation.py lines 193-233),
after the code-fence stripping: `parsed` is the outcome of `json.loads` on
the cleaned reply text (`none` = `JSONDecodeError`, caught → all-pass).
A non-array value → all-pass.  A `TypeError` while converting an id is
caught by the same `except` clause → all-pass.  A `ValueError` from
`int(<non-numeric string>)` is NOT caught and propagates (`Except.error`).
Otherwise item `i` (1-based) gets the verdict declared for id `i`, missing
ids defaulting to `passed=True`. -/
def parse_batch_result (parsed : Option Json) (expected : Nat) :
    Except PyErr (List ModerationResult) :=
  match parsed with
  | none => Except.ok (List.replicate expected passedDefault)
  | some j =>
    match j with
    | Json.arr items =>
      match buildResultMap items with
      | Except.ok m =>
          Except.ok ((List.range expected).map
            (fun i => (lookupLast m (Int.ofNat i + 1)).getD passedDefault))
      | Except.error PyErr.typeErr =>
          Except.ok (List.replicate expected passedDefault)
      | Except.error PyErr.valueErr => Except.error PyErr.valueErr
    | _ => Except.ok (List.replicate expected passedDefault)

/-! ## Moderator configuration (ConfigStore + `_load_settings`) -/

/-- The five cached settings of `ContentModerator` (moderation.py lines
84-99). -/
structure ModeratorConfig where
  enabled : Bool
  api_base : String
  api_key : String
  model : String
  prompt : String
deriving DecidableEq, Repr

/-- `DEFAULT_MODERATION_PROMPT` (moderation.py lines 47-65).  The Chinese
prose is abridged; the `{content}` placeholder and the JSON reply template
are kept, which is all any caller inspects. -/
def DEFAULT_MODERATION_PROMPT : String :=
  "你是内容安全审核员。请逐条判断以下内容是否存在严重违规。\n" ++
  "请以 JSON 数组格式回复：[\x7b\"id\": 1, \"passed\": true, " ++
  "\"category\": \"none\", \"reason\": \"\"\x7d,...]\n待审核内容：\n{content}"

/-- The settings key/value table (`system_settings`): keys are unique
(primary key), modelled as an association list looked up on first match. -/
def lookupStore (store : List (String × String)) (k : String) : Option String :=
  (store.find? (fun p => p.1 == k)).map (fun p => p.2)

/-- `settings_map` construction keeps only rows with a truthy (non-empty)
value: `{s.key: s.value for s in settings if s.value}`. -/
def getValidSetting (store : List (String × String)) (k : String) : Option String :=
  match lookupStore store k with
  | some v => if v == "" then none else some v
  | none => none

/-- `ContentModerator._load_settings` (moderation.py lines 84-99): one
batched read of the five keys with the source's defaults. -/
def load_settings (store : List (String × String)) : ModeratorConfig :=
  { enabled := ((getValidSetting store "moderation_enabled").getD "false") == "true"
    api_base := (getValidSetting store "moderation_api_base").getD "https://api.openai.com/v1"
    api_key := (getValidSetting store "moderation_api_key").getD ""
    model := (getValidSetting store "moderation_model").getD "gpt-4o-mini"
    prompt := (getValidSetting store "moderation_prompt").getD DEFAULT_MODERATION_PROMPT }

/-! ## Classifier client and synchronous check -/

/-- Outcome of the single HTTP interaction inside `_call_llm_batch`:
either some step of `client.post` / `raise_for_status` / `response.json()`
/ `data["choices"][0]["message"]["content"]` raised (`raised`), or the
cleaned reply text was obtained and `json.loads` on it produced `parsed`
(`none` = the text is not valid JSON). -/
inductive CallOutcome where
  | raised (msg : String) : CallOutcome
  | responded (parsed : Option Json) : CallOutcome

/-- `ContentModerator._call_llm_batch` (moderation.py lines 153-191) for a
batch of `n` items, abstracted over the network interaction: an exception
anywhere in the HTTP exchange propagates, and so does the parser's
uncaught `ValueError`. -/
def call_llm_batch (outcome : CallOutcome) (n : Nat) :
    Except String (List ModerationResult) :=
  match outcome with
  | CallOutcome.raised msg => Except.error msg
  | CallOutcome.responded parsed =>
    match parse_batch_result parsed n with
    | Except.ok rs => Except.ok rs
    | Except.error _ => Except.error "invalid literal for int() with base 10"

/-- One `ModerationLog` row (models.py lines 141-154). -/
structure LogRow where
  content_type : String
  content_id : Option Nat
  user_id : Nat
  content_preview : String
  passed : Bool
  flagged_category : Option Json
  reason : Option Json
  model_used : String

/-- What one `ContentModerator.check` call does: its returned verdict, the
`ModerationLog` rows it added to the session, and how many classifier
requests it issued. -/
structure CheckEffect where
  result : ModerationResult
  logs : List LogRow
  llm_calls : Nat

/-- `ContentModerator.check` (moderation.py lines 101-151): disabled or
incompletely configured → pass with no call and no log; a classifier
verdict (pass or fail) → returned and logged; any exception from the
call → fail-open `passed=True` with the error recorded and NO log row. -/
def ContentModerator.check (cfg : ModeratorConfig) (outcome : CallOutcome)
    (content : String) (content_type : String) (user_id : Nat) : CheckEffect :=
  if cfg.enabled = false then { result := passedDefault, logs := [], llm_calls := 0 }
  else if cfg.api_key == "" || cfg.api_base == "" || cfg.model == "" then
    { result := passedDefault, logs := [], llm_calls := 0 }
  else
    match call_llm_batch outcome 1 with
    | Except.ok results =>
      let r := results.headD passedDefault
      { result := r
        logs := [{ content_type := content_type, content_id := none,
                   user_id := user_id, content_preview := content.take 500,
                   passed := r.passed,
                   flagged_category := if r.passed then none else some r.category,
                   reason := if r.passed then none else some r.reason,
                   model_used := cfg.model }]
        llm_calls := 1 }
    | Except.error e =>
      { result := { passed := true, error := some e }, logs := [], llm_calls := 1 }

/-! ## Scheduler tunables (moderation.py lines 346-369) -/

/-- `get_moderation_interval`: `max(10, int(value))`, defaulting to 60 when
the key is missing, empty, or `int(...)` raises. -/
def get_moderation_interval (store : List (String × String)) : Int :=
  match getValidSetting store "moderation_interval" with
  | some v =>
    match pyIntStr v with
    | some n => max 10 n
    | none => 60
  | none => 60

/-- `get_moderation_batch_size`: `max(1, min(50, int(value)))`, defaulting
to 5 when the key is missing, empty, or `int(...)` raises. -/
def get_moderation_batch_size (store : List (String × String)) : Int :=
  match getValidSetting store "moderation_batch_size" with
  | some v =>
    match pyIntStr v with
    | some n => max 1 (min 50 n)
    | none => 5
  | none => 5

/-! ## Relational data model (models.py, plus the `moderated` columns added
by `migrate_add_moderated_field.py`, which also makes
`notifications.thread_id` nullable) -/

/-- A `Thread` row. -/
structure ThreadR where
  id : Nat
  author_id : Nat
  category : String
  title : String
  content : String
  reply_count : Nat
  last_reply_at : Nat
  moderated : Bool
deriving DecidableEq, Repr

/-- A `Reply` row (floor or sub-reply). -/
structure ReplyR where
  id : Nat
  thread_id : Nat
  author_id : Nat
  floor_num : Option Nat
  content : String
  parent_id : Option Nat
  reply_to_id : Option Nat
  moderated : Bool
deriving DecidableEq, Repr

/-- A `Notification` row (`thread_id` nullable after the migration). -/
structure NotifR where
  id : Nat
  user_id : Nat
  ntype : String
  thread_id : Option Nat
  reply_id : Option Nat
  from_user_id : Nat
  content_preview : String
  is_read : Bool
deriving DecidableEq, Repr

/-- The persisted database state used by the pipeline: the four row tables,
the settings store, and id sequences for rows created by the modelled
operations. -/
structure DB where
  threads : List ThreadR
  replies : List ReplyR
  notifs : List NotifR
  logs : List LogRow
  store : List (String × String)
  nextThreadId : Nat
  nextReplyId : Nat
  nextNotifId : Nat

/-- Membership of an optional foreign key in a set of ids. -/
def optMem (x : Option Nat) (l : List Nat) : Bool :=
  match x with
  | some v => l.contains v
  | none => false

/-- Insert a notification row, drawing its id from the sequence
(`db.add(notification); db.flush()`). -/
def addNotif (db : DB) (user_id from_user_id : Nat) (ntype : String)
    (thread_id reply_id : Option Nat) (preview : String) : DB :=
  { db with
    notifs := db.notifs ++ [{ id := db.nextNotifId, user_id := user_id,
                              ntype := ntype, thread_id := thread_id,
                              reply_id := reply_id, from_user_id := from_user_id,
                              content_preview := preview, is_read := false }]
    nextNotifId := db.nextNotifId + 1 }

/-! ## CascadeDeleter (moderation.py lines 510-648) -/

/-- `_delete_thread_and_notify` up to but not including the final
`db.delete(thread)`: insert the author-facing moderation notification,
delete the notifications referencing the thread (keeping the new one) or
its replies, clear `reply_to_id`/`parent_id` pointers into the thread's
replies, delete the thread's replies, and null the new notification's
`thread_id` by direct SQL.  (The source's `if reply_ids:` guards only skip
no-op bulk queries and are dropped; the Redis unread-counter push is
external fire-and-forget state.) -/
def delete_thread_pre (db : DB) (thread : ThreadR) (reason : String) : DB :=
  let notification_id := db.nextNotifId
  let preview := "您的帖子「" ++ thread.title.take 50 ++
    "」未通过内容审核，已被删除。原因：" ++ reason
  let db1 := addNotif db thread.author_id thread.author_id "moderation"
    (some thread.id) none preview
  let reply_ids := (db1.replies.filter (fun r => r.thread_id == thread.id)).map
    (fun r => r.id)
  let notifs1 := db1.notifs.filter
    (fun n => !(n.thread_id == some thread.id && n.id != notification_id))
  let notifs2 := notifs1.filter (fun n => !(optMem n.reply_id reply_ids))
  let replies1 := db1.replies.map
    (fun r => if optMem r.reply_to_id reply_ids then { r with reply_to_id := none } else r)
  let replies2 := replies1.map
    (fun r => if optMem r.parent_id reply_ids then { r with parent_id := none } else r)
  let replies3 := replies2.filter (fun r => !(r.thread_id == thread.id))
  let notifs3 := notifs2.map
    (fun n => if n.id == notification_id then { n with thread_id := none } else n)
  { db1 with notifs := notifs3, replies := replies3 }

/-- `_delete_thread_and_notify` (moderation.py lines 510-574): the steps of
`delete_thread_pre` followed by the final `db.delete(thread)`. -/
def delete_thread_and_notify (db : DB) (thread : ThreadR) (reason : String) : DB :=
  let dbp := delete_thread_pre db thread reason
  { dbp with threads := dbp.threads.filter (fun t => !(t.id == thread.id)) }

/-- `_delete_reply_and_notify` (moderation.py lines 577-648): notify the
author, then for a main floor delete its sub-replies (and their
notifications and cross-references) and decrement the thread's
`reply_count` clamped at 0 (`func.greatest(coalesce(reply_count,0)-d, 0)`
is `Nat` truncated subtraction); for a sub-reply clear references to it
and delete its notifications; finally delete the reply itself. -/
def delete_reply_and_notify (db : DB) (reply : ReplyR) (reason : String) : DB :=
  let is_sub_reply := reply.parent_id.isSome
  let preview := "您的" ++ (if is_sub_reply then "楼中楼" else "回复") ++ "「" ++
    reply.content.take 50 ++ "」未通过内容审核，已被删除。原因：" ++ reason
  let db1 := addNotif db reply.author_id reply.author_id "moderation"
    (some reply.thread_id) none preview
  let db2 :=
    if !is_sub_reply then
      let sub_reply_ids := (db1.replies.filter
        (fun r => r.parent_id == some reply.id)).map (fun r => r.id)
      let all_ids := sub_reply_ids ++ [reply.id]
      let notifs1 := db1.notifs.filter (fun n => !(optMem n.reply_id all_ids))
      let replies1 := db1.replies.map
        (fun r => if optMem r.reply_to_id sub_reply_ids then { r with reply_to_id := none } else r)
      let replies2 := replies1.map
        (fun r => if r.parent_id == some reply.id then { r with reply_to_id := none } else r)
      let replies3 := replies2.filter (fun r => !(r.parent_id == some reply.id))
      let deleted_count := 1 + sub_reply_ids.length
      let threads1 := db1.threads.map
        (fun t => if t.id == reply.thread_id then { t with reply_count := t.reply_count - deleted_count } else t)
      { db1 with notifs := notifs1, replies := replies3, threads := threads1 }
    else
      let replies1 := db1.replies.map
        (fun r => if r.reply_to_id == some reply.id then { r with reply_to_id := none } else r)
      let notifs1 := db1.notifs.filter (fun n => !(n.reply_id == some reply.id))
      { db1 with notifs := notifs1, replies := replies1 }
  { db2 with replies := db2.replies.filter (fun r => !(r.id == reply.id)) }

/-! ## BatchScheduler scan (`_batch_moderate_content`, moderation.py lines
372-507) -/

/-- `thread.moderated = True` on the row with the given id. -/
def setThreadModerated (db : DB) (tid : Nat) : DB :=
  { db with threads := db.threads.map (fun t =>
      if t.id == tid then { t with moderated := true } else t) }

/-- `rpl.moderated = True` on the row with the given id. -/
def setReplyModerated (db : DB) (rid : Nat) : DB :=
  { db with replies := db.replies.map (fun r =>
      if r.id == rid then { r with moderated := true } else r) }

/-- `result.reason or "包含违规内容"`: the declared reason if truthy, else
the generic fallback, rendered to the string handed to the deleter. -/
def reasonStringOf (r : ModerationResult) : String :=
  if truthy r.reason then pyStr r.reason else "包含违规内容"

/-- The audit row `_log_moderation` writes for one thread verdict. -/
def threadLogRow (model : String) (t : ThreadR) (r : ModerationResult) : LogRow :=
  { content_type := "thread", content_id := some t.id, user_id := t.author_id,
    content_preview := (t.title ++ "\n" ++ t.content).take 500,
    passed := r.passed,
    flagged_category := if r.passed then none else some r.category,
    reason := if r.passed then none else some r.reason,
    model_used := model }

/-- The audit row `_log_moderation` writes for one reply verdict
(`content_type` is `sub_reply` when the row has a parent). -/
def replyLogRow (model : String) (rpl : ReplyR) (r : ModerationResult) : LogRow :=
  { content_type := if rpl.parent_id.isSome then "sub_reply" else "reply",
    content_id := some rpl.id, user_id := rpl.author_id,
    content_preview := rpl.content.take 500,
    passed := r.passed,
    flagged_category := if r.passed then none else some r.category,
    reason := if r.passed then none else some r.reason,
    model_used := model }

/-- The `for rpl, result in zip(batch_replies, batch_results)` loop of the
scan: log each verdict, flip passing replies to `moderated=True`, hand
failing replies to the cascade deleter. -/
def process_reply_batch (model : String) (db : DB) :
    List (ReplyR × ModerationResult) → DB
  | [] => db
  | (rpl, r) :: rest =>
    let db1 := { db with logs := db.logs ++ [replyLogRow model rpl r] }
    let db2 := if r.passed then setReplyModerated db1 rpl.id
               else delete_reply_and_notify db1 rpl (reasonStringOf r)
    process_reply_batch model db2 rest

/-- The per-thread loop of the scan: each pending thread is classified
individually; an exception from the call (or the parser's uncaught
`ValueError`) defaults that thread to `moderated=True` and the loop
continues; otherwise the verdict is logged and applied.  `oracle k` is the
outcome of the `k`-th classifier request of this scan. -/
def moderate_pending_threads (cfg : ModeratorConfig) (oracle : Nat → CallOutcome) :
    List ThreadR → DB → Nat → DB × Nat
  | [], db, calls => (db, calls)
  | t :: rest, db, calls =>
    let db' :=
      match call_llm_batch (oracle calls) 1 with
      | Except.error _ => setThreadModerated db t.id
      | Except.ok rs =>
        let r := rs.headD passedDefault
        let dbL := { db with logs := db.logs ++ [threadLogRow cfg.model t r] }
        if r.passed then setThreadModerated dbL t.id
        else delete_thread_and_notify dbL t (reasonStringOf r)
    moderate_pending_threads cfg oracle rest db' (calls + 1)

/-- `range(0, len(xs), B)` slicing into consecutive chunks of size `B`
(the last one possibly shorter).  `B = 0` cannot occur (the batch size is
clamped to 1..50). -/
def chunkList (B : Nat) : List ReplyR → List (List ReplyR)
  | [] => []
  | x :: xs =>
    if _hB : B = 0 then [x :: xs]
    else (x :: xs).take B :: chunkList B ((x :: xs).drop B)
termination_by l => l.length
decreasing_by
  simp only [List.length_drop, List.length_cons]
  omega

/-- The reply-batch loop of the scan: each chunk goes out as one classifier
request; a whole-batch failure defaults every reply in the chunk to
`moderated=True`; otherwise the zipped verdicts are applied one by one. -/
def moderate_pending_replies (cfg : ModeratorConfig) (oracle : Nat → CallOutcome) :
    List (List ReplyR) → DB → Nat → DB × Nat
  | [], db, calls => (db, calls)
  | chunk :: rest, db, calls =>
    let db' :=
      match call_llm_batch (oracle calls) chunk.length with
      | Except.error _ => chunk.foldl (fun d rpl => setReplyModerated d rpl.id) db
      | Except.ok rs => process_reply_batch cfg.model db (chunk.zip rs)
    moderate_pending_replies cfg oracle rest db' (calls + 1)

/-- The disabled/misconfigured short-circuit: flip every pending
`moderated=False` thread and reply straight to `True`. -/
def flip_all_unmoderated (db : DB) : DB :=
  { db with
    threads := db.threads.map (fun t => { t with moderated := true })
    replies := db.replies.map (fun r => { r with moderated := true }) }

/-- `_batch_moderate_content` (moderation.py lines 372-507): one scan pass.
Returns the committed state and the number of classifier requests made.
If moderation is disabled, or the key/base/model configuration is
incomplete, all pending rows are flipped to `moderated=True` with zero
classifier calls.  Otherwise pending threads are classified one by one,
then pending replies (re-read after the thread pass, whose cascades may
have deleted some) in chunks of the configured batch size. -/
def batch_moderate_content (db : DB) (oracle : Nat → CallOutcome) : DB × Nat :=
  let cfg := load_settings db.store
  if cfg.enabled = false then (flip_all_unmoderated db, 0)
  else if cfg.api_key == "" || cfg.api_base == "" || cfg.model == "" then
    (flip_all_unmoderated db, 0)
  else
    let pending := db.threads.filter (fun t => t.moderated == false)
    let step1 := moderate_pending_threads cfg oracle pending db 0
    let B := (get_moderation_batch_size step1.1.store).toNat
    let chunks := chunkList B (step1.1.replies.filter (fun r => r.moderated == false))
    moderate_pending_replies cfg oracle chunks step1.1 step1.2

/-! ## FloorAllocator / reply creation (routers/replies.py lines 26-129) -/

/-- `func.max` over the floor numbers of one thread's replies (SQL `MAX`
ignores NULL `floor_num` of sub-replies and is NULL over no rows). -/
def listMaxNat : List Nat → Option Nat
  | [] => none
  | x :: xs =>
    match listMaxNat xs with
    | none => some x
    | some m => some (max x m)

/-- The floor numbers currently present in one thread. -/
def floorsOf (db : DB) (tid : Nat) : List Nat :=
  (db.replies.filter (fun r => r.thread_id == tid)).filterMap (fun r => r.floor_num)

/-- Outcome of a reply-creation request.  `notFound` is the HTTP 404 at the
initial existence check; `attrError` is the unhandled
`AttributeError: 'NoneType' object has no attribute 'reply_count'` hit
when the thread row vanished between that check and the `FOR UPDATE`
re-read (the request fails, nothing is committed); `created` carries the
committed state and the allocated floor number. -/
inductive CreateReplyOutcome where
  | notFound : CreateReplyOutcome
  | attrError : CreateReplyOutcome
  | created (db : DB) (floor : Nat) : CreateReplyOutcome

/-- `create_reply` (routers/replies.py lines 26-129).  `db_check` is the
state seen by the initial existence check, `db_lock` the state seen once
the `FOR UPDATE` row lock is held (a concurrent deletion may happen in
between; a sequential call passes the same state twice).  The floor is
`(max_floor or 1) + 1` — Python `or` also replaces a (never stored) 0 by 1.
The notification tail (`create_notification`, `parse_mentions` live in
routers/notifications.py, outside the analysed sources) is modelled from
the spec as plain notification-row inserts for the thread author and the
mentioned users; block-list filtering and the experience subsystem are out
of scope, and neither touches Thread or Reply rows. -/
def create_reply (db_check db_lock : DB) (thread_id author_id : Nat)
    (content : String) (cfg : ModeratorConfig) (now : Nat)
    (mentioned_user_ids : List Nat) : CreateReplyOutcome :=
  match db_check.threads.find? (fun t => t.id == thread_id) with
  | none => CreateReplyOutcome.notFound
  | some _ =>
    let needs_moderation := cfg.enabled && cfg.api_key != "" && cfg.api_base != ""
    match db_lock.threads.find? (fun t => t.id == thread_id) with
    | none =>
      -- the source computes `next_floor`, builds the Reply and calls
      -- `db.add` before crashing at `thread.reply_count = ...`; the
      -- session is never committed, so no row is persisted
      CreateReplyOutcome.attrError
    | some t2 =>
      let max_floor := listMaxNat (floorsOf db_lock thread_id)
      let next_floor : Nat :=
        match max_floor with
        | none => 2
        | some m => if m = 0 then 2 else m + 1
      let new_reply : ReplyR :=
        { id := db_lock.nextReplyId, thread_id := thread_id,
          author_id := author_id, floor_num := some next_floor,
          content := content, parent_id := none, reply_to_id := none,
          moderated := !needs_moderation }
      let db1 := { db_lock with
        replies := db_lock.replies ++ [new_reply]
        nextReplyId := db_lock.nextReplyId + 1 }
      let db2 := { db1 with threads := db1.threads.map (fun t =>
          if t.id == thread_id then
            { t with reply_count := next_floor - 1, last_reply_at := now }
          else t) }
      let db3 := addNotif db2 t2.author_id author_id "reply"
        (some thread_id) (some new_reply.id) content
      let db4 := mentioned_user_ids.foldl (fun d uid =>
          if uid == t2.author_id then d
          else addNotif d uid author_id "mention" (some thread_id)
            (some new_reply.id) content) db3
      CreateReplyOutcome.created db4 next_floor

/-- `K` sequential reply creations against one thread (the `FOR UPDATE`
lock serializes concurrent ones into exactly such a sequence); each call
sees the state the previous one committed. -/
def create_replies_seq (thread_id author_id : Nat) (content : String)
    (cfg : ModeratorConfig) (now : Nat) : Nat → DB → DB
  | 0, db => db
  | k + 1, db =>
    match create_reply db db thread_id author_id content cfg now [] with
    | CreateReplyOutcome.created db' _ =>
        create_replies_seq thread_id author_id content cfg now k db'
    | _ => db

/-! ## Thread publication (routers/threads.py lines 118-156) -/

/-- `THREAD_CATEGORIES` keys (models.py lines 59-67). -/
def THREAD_CATEGORY_KEYS : List String :=
  ["chat", "deals", "misc", "tech", "help", "intro", "acg"]

/-- Outcome of the publish endpoint: HTTP 400 with the rejection detail, or
the created thread id. -/
inductive CreateThreadOutcome where
  | rejected (detail : String) : CreateThreadOutcome
  | created (thread_id : Nat) : CreateThreadOutcome

/-- `create_thread` (routers/threads.py lines 118-156): run the synchronous
check; on `passed=False` commit (persisting the audit row the check added
to the session) and raise 400 without creating a Thread row; otherwise
validate the category and create the thread.  The new row's `moderated`
column takes the database default `TRUE` set by the migration (the
endpoint does not pass it). -/
def create_thread (cfg : ModeratorConfig) (outcome : CallOutcome) (db : DB)
    (author_id : Nat) (title content category : String) (now : Nat) :
    DB × CreateThreadOutcome :=
  let eff := ContentModerator.check cfg outcome (title ++ "\n" ++ content)
    "thread" author_id
  let dbLogged := { db with logs := db.logs ++ eff.logs }
  if eff.result.passed = false then
    (dbLogged, CreateThreadOutcome.rejected
      ("内容审核未通过：" ++ reasonStringOf eff.result))
  else
    let cat := if THREAD_CATEGORY_KEYS.contains category then category else "chat"
    let newT : ThreadR :=
      { id := db.nextThreadId, author_id := author_id, category := cat,
        title := title, content := content, reply_count := 0,
        last_reply_at := now, moderated := true }
    ({ dbLogged with
        threads := dbLogged.threads ++ [newT]
        nextThreadId := db.nextThreadId + 1 },
     CreateThreadOutcome.created newT.id)

/-! ## Moderation config cache (moderation.py lines 286-341) and the admin
settings endpoint (routers/admin.py lines 313-335) -/

/-- The process-level cache: `_moderator_config_cache` and
`_moderator_config_cache_time`. -/
structure CacheState where
  config : Option ModeratorConfig
  time : Nat
deriving DecidableEq, Repr

/-- `_MODERATOR_CACHE_TTL` (seconds). -/
def MODERATOR_CACHE_TTL : Nat := 60

/-- `get_moderator` (moderation.py lines 293-323): reload from the store
when no snapshot is cached or the snapshot is older than the TTL,
otherwise serve the cached config without touching the store. -/
def get_moderator (store : List (String × String)) (cache : CacheState)
    (now : Nat) : ModeratorConfig × CacheState :=
  match cache.config with
  | none =>
    let cfg := load_settings store
    (cfg, { config := some cfg, time := now })
  | some cfg =>
    if now - cache.time > MODERATOR_CACHE_TTL then
      let cfg' := load_settings store
      (cfg', { config := some cfg', time := now })
    else (cfg, cache)

/-- `invalidate_moderation_cache` (moderation.py lines 326-341): clears the
snapshot so the next read hits the store (the Redis side is external
state).  Defined in the source — but no caller exists anywhere in it. -/
def invalidate_moderation_cache : CacheState :=
  { config := none, time := 0 }

/-- The `ModerationSettingsUpdate` request body: absent fields are left
unchanged. -/
structure ModerationSettingsUpdate where
  enabled : Option Bool
  api_base : Option String
  api_key : Option String
  model : Option String
  prompt : Option String

/-- `_set_setting` (routers/admin.py lines 285-292): update the row in
place or insert it. -/
def set_setting (store : List (String × String)) (k v : String) :
    List (String × String) :=
  if (store.find? (fun p => p.1 == k)).isSome then
    store.map (fun p => if p.1 == k then (k, v) else p)
  else store ++ [(k, v)]

/-- `update_moderation_settings` (routers/admin.py lines 313-335): write
each provided field to the store and commit.  The endpoint returns without
touching the process-level moderation config cache —
`invalidate_moderation_cache` is never called. -/
def update_moderation_settings (store : List (String × String))
    (data : ModerationSettingsUpdate) : List (String × String) :=
  let s1 := match data.enabled with
    | some b => set_setting store "moderation_enabled" (if b then "true" else "false")
    | none => store
  let s2 := match data.api_base with
    | some v => set_setting s1 "moderation_api_base" v
    | none => s1
  let s3 := match data.api_key with
    | some v => set_setting s2 "moderation_api_key" v
    | none => s2
  let s4 := match data.model with
    | some v => set_setting s3 "moderation_model" v
    | none => s3
  match data.prompt with
  | some v => set_setting s4 "moderation_prompt" v
  | none => s4

/-! ## Claim C9: scheduler tunables -/

/-- `max 1 (min 50 n)` (the source's expression) is `n` clamped to 1..50
(the spec's phrasing). -/
theorem intClampComm (n : Int) : max 1 (min 50 n) = min (max n 1) 50 := by
  simp only [max_def, min_def]
  split_ifs <;> omega

/-- C9: for every stored string value of the scheduler tunables, the scan
interval read from ConfigStore equals `max 10 (parsed integer)` and is 60
when the key is missing or unparseable; the reply batch size equals the
parsed integer clamped to 1..50 and is 5 when the key is missing or
unparseable.  (An empty stored value behaves exactly like an unparseable
one: Python `int("")` raises.) -/
theorem scheduler_tunables_clamped (store : List (String × String)) :
    (lookupStore store "moderation_interval" = none →
      get_moderation_interval store = 60) ∧
    (∀ v, lookupStore store "moderation_interval" = some v →
      (pyIntStr v = none → get_moderation_interval store = 60) ∧
      (∀ n, pyIntStr v = some n → get_moderation_interval store = max 10 n)) ∧
    (lookupStore store "moderation_batch_size" = none →
      get_moderation_batch_size store = 5) ∧
    (∀ v, lookupStore store "moderation_batch_size" = some v →
      (pyIntStr v = none → get_moderation_batch_size store = 5) ∧
      (∀ n, pyIntStr v = some n →
        get_moderation_batch_size store = min (max n 1) 50)) := by
  refine ⟨?_, ?_, ?_, ?_⟩
  · intro h
    simp [get_moderation_interval, getValidSetting, h]
  · intro v hv
    by_cases h0 : v = ""
    · subst h0
      have hp : pyIntStr "" = none := by decide
      refine ⟨fun _ => ?_, fun n hn => ?_⟩
      · simp [get_moderation_interval, getValidSetting, hv]
      · rw [hp] at hn; cases hn
    · have hne : (v == "") = false := by simp [h0]
      refine ⟨fun hp => ?_, fun n hn => ?_⟩
      · simp [get_moderation_interval, getValidSetting, hv, hne, hp]
      · simp [get_moderation_interval, getValidSetting, hv, hne, hn]
  · intro h
    simp [get_moderation_batch_size, getValidSetting, h]
  · intro v hv
    by_cases h0 : v = ""
    · subst h0
      have hp : pyIntStr "" = none := by decide
      refine ⟨fun _ => ?_, fun n hn => ?_⟩
      · simp [get_moderation_batch_size, getValidSetting, hv]
      · rw [hp] at hn; cases hn
    · have hne : (v == "") = false := by simp [h0]
      refine ⟨fun hp => ?_, fun n hn => ?_⟩
      · simp [get_moderation_batch_size, getValidSetting, hv, hne, hp]
      · simp [get_moderation_batch_size, getValidSetting, hv, hne, hn,
              intClampComm]

/-- C9 witness: a stored interval of "3" is clamped up to 10 and a stored
batch size of "99" is clamped down to 50. -/
theorem scheduler_tunables_clamped_witness :
    lookupStore [("moderation_interval", "3"), ("moderation_batch_size", "99")]
      "moderation_interval" = some "3" ∧
    pyIntStr "3" = some 3 ∧
    get_moderation_interval [("moderation_interval", "3"), ("moderation_batch_size", "99")] = max 10 3 ∧
    get_moderation_batch_size [("moderation_interval", "3"), ("moderation_batch_size", "99")] = min (max 99 1) 50 :=
  ⟨by decide, by decide,
   ((scheduler_tunables_clamped _).2.1 "3" (by decide)).2 3 (by decide),
   ((scheduler_tunables_clamped _).2.2.2 "99" (by decide)).2 99 (by decide)⟩

/-! ## Claim C6: the settings endpoint and the config cache -/

/-- A store with moderation disabled. -/
def c6Store0 : List (String × String) :=
  [("moderation_enabled", "false"), ("moderation_api_base", "https://api.test"),
   ("moderation_api_key", "sk-key"), ("moderation_model", "model-x")]

/-- The admin request enabling moderation. -/
def c6Update : ModerationSettingsUpdate :=
  { enabled := some true, api_base := none, api_key := none,
    model := none, prompt := none }

/-- The store after the endpoint's writes. -/
def c6Store1 : List (String × String) := update_moderation_settings c6Store0 c6Update

/-- The cache state left by a `get_moderator` read at time 0 on the old
store. -/
def c6Cache1 : CacheState := (get_moderator c6Store0 { config := none, time := 0 } 0).2

/-- C6 (code bug): the admin settings endpoint never calls
`invalidate_moderation_cache`, so a `get_moderator` read 40 seconds after
a cached read — within the 60-second TTL — still serves the pre-update
snapshot: the store now says `enabled=true` but the read returns
`enabled=false`.  Calling `invalidate_moderation_cache` (which the source
defines for exactly this, but never calls) would have fixed it. -/
theorem settings_update_leaves_cache_stale :
    (get_moderator c6Store0 { config := none, time := 0 } 0).1.enabled = false ∧
    (load_settings c6Store1).enabled = true ∧
    (get_moderator c6Store1 c6Cache1 40).1.enabled = false ∧
    (get_moderator c6Store1 c6Cache1 40).1 =
      (get_moderator c6Store0 { config := none, time := 0 } 0).1 ∧
    (get_moderator c6Store1 invalidate_moderation_cache 40).1.enabled = true := by
  refine ⟨by decide, by decide, by decide, by decide, by decide⟩

/-! ## Claim C8: thread vanishing under the floor allocator -/

/-- A config with moderation off (irrelevant to the outcome). -/
def c8Cfg : ModeratorConfig :=
  { enabled := false, api_base := "", api_key := "", model := "",
    prompt := DEFAULT_MODERATION_PROMPT }

/-- A database holding thread 1. -/
def c8DbBefore : DB :=
  { threads := [{ id := 1, author_id := 7, category := "chat", title := "t",
                  content := "c", reply_count := 0, last_reply_at := 0,
                  moderated := true }],
    replies := [], notifs := [], logs := [], store := [],
    nextThreadId := 2, nextReplyId := 10, nextNotifId := 100 }

/-- The same database after a concurrent deletion of thread 1. -/
def c8DbGone : DB := { c8DbBefore with threads := [] }

/-- C8 (code bug): when the thread exists at the initial check but is gone
at the `FOR UPDATE` re-read, `create_reply` ends in the unhandled
`AttributeError` (`thread` is `None` at `thread.reply_count = ...`) — an
HTTP 500, not the NotFound the spec promises — and no Reply row is
persisted.  Only when the thread is already missing at the initial check
does the endpoint raise the 404 NotFound. -/
theorem thread_vanished_attr_error :
    create_reply c8DbBefore c8DbGone 1 9 "hi" c8Cfg 0 [] =
      CreateReplyOutcome.attrError ∧
    create_reply c8DbGone c8DbGone 1 9 "hi" c8Cfg 0 [] =
      CreateReplyOutcome.notFound :=
  ⟨rfl, rfl⟩

/-! ## Claim C7: check under classifier failure -/

/-- An enabled, fully configured moderator. -/
def c7Cfg : ModeratorConfig :=
  { enabled := true, api_base := "https://api.test", api_key := "sk-key",
    model := "model-x", prompt := DEFAULT_MODERATION_PROMPT }

/-- C7 counterexample: with moderation enabled and fully configured, a
classifier response whose content fails to parse as JSON makes
`check` return `passed=true` with a NULL error and WRITE one
ModerationLog row — the claim demands a non-null error and no log row. -/
theorem check_parse_failure_logged_counterexample :
    (ContentModerator.check c7Cfg (CallOutcome.responded none) "hello" "thread" 1).result.passed = true ∧
    (ContentModerator.check c7Cfg (CallOutcome.responded none) "hello" "thread" 1).result.error = none ∧
    (ContentModerator.check c7Cfg (CallOutcome.responded none) "hello" "thread" 1).logs.length = 1 :=
  ⟨rfl, rfl, rfl⟩

/-- C7 amended: when moderation is enabled and fully configured, an
exception raised by the classifier interaction (network error, non-2xx,
malformed response envelope) makes `check` return `passed=true` with a
non-null error and write NO log row; when the HTTP exchange succeeds but
the message content does not parse as a JSON array, the parser falls back
to a `passed=true` verdict which IS logged, and `check` returns a null
error; every verdict the parser returns — pass or fail — produces exactly
one log row. -/
theorem check_failure_modes (cfg : ModeratorConfig) (content : String) (uid : Nat)
    (he : cfg.enabled = true) (hk : cfg.api_key ≠ "") (hb : cfg.api_base ≠ "")
    (hm : cfg.model ≠ "") :
    (∀ msg, ContentModerator.check cfg (CallOutcome.raised msg) content "thread" uid =
      { result := { passed := true, error := some msg }, logs := [], llm_calls := 1 }) ∧
    ((ContentModerator.check cfg (CallOutcome.responded none) content "thread" uid).result.passed = true ∧
     (ContentModerator.check cfg (CallOutcome.responded none) content "thread" uid).result.error = none ∧
     (ContentModerator.check cfg (CallOutcome.responded none) content "thread" uid).logs.length = 1 ∧
     (∀ l ∈ (ContentModerator.check cfg (CallOutcome.responded none) content "thread" uid).logs,
       l.passed = true)) ∧
    (∀ parsed rs, parse_batch_result parsed 1 = Except.ok rs →
      (ContentModerator.check cfg (CallOutcome.responded parsed) content "thread" uid).logs.length = 1) := by
  have hk' : (cfg.api_key == "") = false := by simpa using hk
  have hb' : (cfg.api_base == "") = false := by simpa using hb
  have hm' : (cfg.model == "") = false := by simpa using hm
  refine ⟨?_, ?_, ?_⟩
  · intro msg
    simp [ContentModerator.check, he, hk', hb', hm', call_llm_batch]
  · refine ⟨?_, ?_, ?_, ?_⟩ <;>
      simp [ContentModerator.check, he, hk', hb', hm', call_llm_batch,
            parse_batch_result, passedDefault]
  · intro parsed rs h
    simp [ContentModerator.check, he, hk', hb', hm', call_llm_batch, h]

/-- C7 witness: the amended theorem applied to a concrete enabled config
and a raising classifier. -/
theorem check_failure_modes_witness :
    (c7Cfg.enabled = true ∧ c7Cfg.api_key ≠ "" ∧ c7Cfg.api_base ≠ "" ∧
      c7Cfg.model ≠ "") ∧
    ContentModerator.check c7Cfg (CallOutcome.raised "boom") "hello" "thread" 1 =
      { result := { passed := true, error := some "boom" }, logs := [], llm_calls := 1 } :=
  ⟨⟨rfl, by decide, by decide, by decide⟩,
   (check_failure_modes c7Cfg "hello" 1 rfl (by decide) (by decide) (by decide)).1 "boom"⟩

/-! ## Claim C5: disabled / misconfigured pipeline short-circuits -/

/-- C5: if moderation is disabled, or any of api key, api base, or model is
empty, then the synchronous check returns `passed=true` with no classifier
call and no log, and a batch scan flips every pending `moderated=false`
Thread and Reply row straight to `moderated=true` with zero classifier
calls, deleting nothing and logging nothing. -/
theorem disabled_scan_pass_through (cfg : ModeratorConfig)
    (h : cfg.enabled = false ∨ cfg.api_key = "" ∨ cfg.api_base = "" ∨ cfg.model = "") :
    (∀ outcome content ctype uid,
      ContentModerator.check cfg outcome content ctype uid =
        { result := passedDefault, logs := [], llm_calls := 0 }) ∧
    (∀ db oracle, load_settings db.store = cfg →
      batch_moderate_content db oracle = (flip_all_unmoderated db, 0) ∧
      (batch_moderate_content db oracle).2 = 0 ∧
      (batch_moderate_content db oracle).1.threads.map (fun t => t.id) =
        db.threads.map (fun t => t.id) ∧
      (batch_moderate_content db oracle).1.replies.map (fun r => r.id) =
        db.replies.map (fun r => r.id) ∧
      (∀ t ∈ (batch_moderate_content db oracle).1.threads, t.moderated = true) ∧
      (∀ r ∈ (batch_moderate_content db oracle).1.replies, r.moderated = true) ∧
      (batch_moderate_content db oracle).1.notifs = db.notifs ∧
      (batch_moderate_content db oracle).1.logs = db.logs) := by
  have hc : ∀ outcome content ctype uid,
      ContentModerator.check cfg outcome content ctype uid =
        { result := passedDefault, logs := [], llm_calls := 0 } := by
    intro outcome content ctype uid
    unfold ContentModerator.check
    rcases h with h1 | h2 | h3 | h4
    · simp [h1]
    · by_cases he : cfg.enabled = false
      · simp [he]
      · simp [he, show (cfg.api_key == "") = true by simpa using h2]
    · by_cases he : cfg.enabled = false
      · simp [he]
      · simp [he, show (cfg.api_base == "") = true by simpa using h3]
    · by_cases he : cfg.enabled = false
      · simp [he]
      · simp [he, show (cfg.model == "") = true by simpa using h4]
  have hb : ∀ (db : DB) (oracle : Nat → CallOutcome), load_settings db.store = cfg →
      batch_moderate_content db oracle = (flip_all_unmoderated db, 0) := by
    intro db oracle hload
    unfold batch_moderate_content
    rw [hload]
    rcases h with h1 | h2 | h3 | h4
    · simp [h1]
    · by_cases he : cfg.enabled = false
      · simp [he]
      · simp [he, show (cfg.api_key == "") = true by simpa using h2]
    · by_cases he : cfg.enabled = false
      · simp [he]
      · simp [he, show (cfg.api_base == "") = true by simpa using h3]
    · by_cases he : cfg.enabled = false
      · simp [he]
      · simp [he, show (cfg.model == "") = true by simpa using h4]
  refine ⟨hc, fun db oracle hload => ?_⟩
  have hbm := hb db oracle hload
  refine ⟨hbm, by rw [hbm], ?_, ?_, ?_, ?_, by rw [hbm]; rfl, by rw [hbm]; rfl⟩
  · rw [hbm]
    show (db.threads.map _).map _ = _
    rw [List.map_map]
    rfl
  · rw [hbm]
    show (db.replies.map _).map _ = _
    rw [List.map_map]
    rfl
  · intro t ht
    rw [hbm] at ht
    simp only [flip_all_unmoderated, List.mem_map] at ht
    obtain ⟨t0, _, rfl⟩ := ht
    rfl
  · intro r hr
    rw [hbm] at hr
    simp only [flip_all_unmoderated, List.mem_map] at hr
    obtain ⟨r0, _, rfl⟩ := hr
    rfl

/-- A database with one pending thread and one pending reply, and a store
that disables moderation. -/
def c5Db : DB :=
  { threads := [{ id := 1, author_id := 7, category := "chat", title := "t",
                  content := "c", reply_count := 1, last_reply_at := 0,
                  moderated := false }],
    replies := [{ id := 10, thread_id := 1, author_id := 8, floor_num := some 2,
                  content := "r", parent_id := none, reply_to_id := none,
                  moderated := false }],
    notifs := [], logs := [], store := [("moderation_enabled", "false")],
    nextThreadId := 2, nextReplyId := 11, nextNotifId := 1 }

/-- C5 witness: on a concrete disabled store, the check is a silent pass
and one scan flips the pending thread and reply with zero calls. -/
theorem disabled_scan_pass_through_witness :
    (load_settings c5Db.store).enabled = false ∧
    ContentModerator.check (load_settings c5Db.store) (CallOutcome.raised "x")
      "c" "thread" 1 = { result := passedDefault, logs := [], llm_calls := 0 } ∧
    (batch_moderate_content c5Db (fun _ => CallOutcome.raised "x")).2 = 0 ∧
    (∀ t ∈ (batch_moderate_content c5Db (fun _ => CallOutcome.raised "x")).1.threads,
      t.moderated = true) ∧
    (∀ r ∈ (batch_moderate_content c5Db (fun _ => CallOutcome.raised "x")).1.replies,
      r.moderated = true) :=
  ⟨by decide,
   (disabled_scan_pass_through _ (Or.inl (by decide))).1 _ _ _ _,
   ((disabled_scan_pass_through _ (Or.inl (by decide))).2 c5Db _ rfl).2.1,
   ((disabled_scan_pass_through _ (Or.inl (by decide))).2 c5Db _ rfl).2.2.2.2.1,
   ((disabled_scan_pass_through _ (Or.inl (by decide))).2 c5Db _ rfl).2.2.2.2.2.1⟩

/-! ## Claim C10: rejection at the publish endpoint still commits the log -/

/-- A failed `check` verdict always comes from the classifier branch, which
logs exactly one row, with `passed=False`. -/
theorem check_failed_logs (cfg : ModeratorConfig) (outcome : CallOutcome)
    (content ctype : String) (uid : Nat)
    (h : (ContentModerator.check cfg outcome content ctype uid).result.passed = false) :
    (ContentModerator.check cfg outcome content ctype uid).logs.length = 1 ∧
    (∀ l ∈ (ContentModerator.check cfg outcome content ctype uid).logs,
      l.passed = false) := by
  unfold ContentModerator.check at h ⊢
  split_ifs at h ⊢ with h1 h2
  · exact absurd h (by simp [passedDefault])
  · exact absurd h (by simp [passedDefault])
  · cases hc : call_llm_batch outcome 1 with
    | ok rs =>
      rw [hc] at h
      dsimp only at h ⊢
      simp only [List.headD_eq_head?_getD] at h
      simp [h]
    | error e =>
      rw [hc] at h
      simp at h

/-- C10: when the synchronous check fails at the thread-publish endpoint,
no Thread row is created, but the single `passed=False` ModerationLog row
recorded by the check is committed before the 400 rejection is raised. -/
theorem create_thread_rejected_commits_log (cfg : ModeratorConfig)
    (outcome : CallOutcome) (db : DB) (author : Nat)
    (title content category : String) (now : Nat)
    (h : (ContentModerator.check cfg outcome (title ++ "\n" ++ content)
      "thread" author).result.passed = false) :
    create_thread cfg outcome db author title content category now =
      ({ db with logs := db.logs ++
          (ContentModerator.check cfg outcome (title ++ "\n" ++ content)
            "thread" author).logs },
       CreateThreadOutcome.rejected ("内容审核未通过：" ++
         reasonStringOf (ContentModerator.check cfg outcome
           (title ++ "\n" ++ content) "thread" author).result)) ∧
    (create_thread cfg outcome db author title content category now).1.threads =
      db.threads ∧
    (ContentModerator.check cfg outcome (title ++ "\n" ++ content)
      "thread" author).logs.length = 1 ∧
    (∀ l ∈ (ContentModerator.check cfg outcome (title ++ "\n" ++ content)
      "thread" author).logs, l.passed = false) := by
  have hmain : create_thread cfg outcome db author title content category now =
      ({ db with logs := db.logs ++
          (ContentModerator.check cfg outcome (title ++ "\n" ++ content)
            "thread" author).logs },
       CreateThreadOutcome.rejected ("内容审核未通过：" ++
         reasonStringOf (ContentModerator.check cfg outcome
           (title ++ "\n" ++ content) "thread" author).result)) := by
    unfold create_thread
    rw [if_pos h]
  have hlogs := check_failed_logs cfg outcome (title ++ "\n" ++ content)
    "thread" author h
  exact ⟨hmain, by rw [hmain], hlogs.1, hlogs.2⟩

/-- A classifier response rejecting the single item of a one-item batch. -/
def c10Outcome : CallOutcome :=
  CallOutcome.responded (some (Json.arr [Json.obj
    [("id", Json.num 1), ("passed", Json.bool false)]]))

/-- C10 witness: an enabled config and a classifier response rejecting the
single item make the publish endpoint reject while committing the log. -/
theorem create_thread_rejected_commits_log_witness :
    (ContentModerator.check c7Cfg c10Outcome
      ("T" ++ "\n" ++ "C") "thread" 7).result.passed = false ∧
    (create_thread c7Cfg c10Outcome c5Db 7 "T" "C" "chat" 0).1.threads =
      c5Db.threads :=
  ⟨by decide,
   (create_thread_rejected_commits_log c7Cfg c10Outcome c5Db 7 "T" "C" "chat" 0
     (by decide)).2.1⟩

/-! ## Claim C1: parse failure is fail-open for a whole batch -/

/-- `isinstance(results_raw, list)`. -/
def Json.isArr : Json → Bool
  | Json.arr _ => true
  | _ => false

/-- Map with a pointwise-equal function. -/
theorem listMapCongr {α β : Type} {l : List α} {f g : α → β}
    (h : ∀ a ∈ l, f a = g a) : l.map f = l.map g := by
  induction l with
  | nil => rfl
  | cons x xs ih =>
    simp only [List.map_cons]
    rw [h x (by simp), ih (fun a ha => h a (by simp [ha]))]

/-- Filter with a pointwise-equal predicate. -/
theorem listFilterCongr {α : Type} {l : List α} {p q : α → Bool}
    (h : ∀ a ∈ l, p a = q a) : l.filter p = l.filter q := by
  induction l with
  | nil => rfl
  | cons x xs ih =>
    simp only [List.filter_cons]
    rw [h x (by simp), ih (fun a ha => h a (by simp [ha]))]

/-- Flipping one reply's `moderated` flag keeps the set of reply ids. -/
theorem setReplyModerated_ids (db : DB) (rid : Nat) :
    (setReplyModerated db rid).replies.map (fun r => r.id) =
      db.replies.map (fun r => r.id) := by
  simp only [setReplyModerated, List.map_map]
  exact listMapCongr (fun r _ => by
    show (if (r.id == rid) = true then _ else r).id = r.id
    split <;> rfl)

/-- Applying a batch of all-`passed` verdicts deletes no reply, touches no
thread and no notification (each item only gets `moderated=True` and a log
row). -/
theorem process_reply_batch_all_passed (model : String) :
    ∀ (prs : List (ReplyR × ModerationResult)) (db : DB),
    (∀ pr ∈ prs, pr.2.passed = true) →
    ((process_reply_batch model db prs).replies.map (fun r => r.id) =
      db.replies.map (fun r => r.id)) ∧
    (process_reply_batch model db prs).threads = db.threads ∧
    (process_reply_batch model db prs).notifs = db.notifs := by
  intro prs
  induction prs with
  | nil => exact fun db _ => ⟨rfl, rfl, rfl⟩
  | cons pr rest ih =>
    intro db h
    obtain ⟨rpl, r⟩ := pr
    have hr : r.passed = true := h (rpl, r) (by simp)
    simp only [process_reply_batch, hr, if_true]
    have hrest := ih
      (setReplyModerated { db with logs := db.logs ++ [replyLogRow model rpl r] } rpl.id)
      (fun pr hpr => h pr (List.mem_cons_of_mem _ hpr))
    refine ⟨?_, ?_, ?_⟩
    · rw [hrest.1, setReplyModerated_ids]
    · rw [hrest.2.1]; rfl
    · rw [hrest.2.2]; rfl

/-- C1: for every classifier response whose text raises on JSON parsing
(`parsed = none`) or parses to a non-array, and every expected count
`n ≥ 1`, the batch parser returns exactly `n` verdicts all with
`passed=true`, and applying those verdicts in a scan deletes no reply,
thread or notification — no item transitions to rejected. -/
theorem parse_failure_fail_open (n : Nat) (parsed : Option Json)
    (hn : 1 ≤ n)
    (hbad : parsed = none ∨ ∃ j, parsed = some j ∧ j.isArr = false) :
    parse_batch_result parsed n = Except.ok (List.replicate n passedDefault) ∧
    (List.replicate n passedDefault).length = n ∧
    (∀ r ∈ List.replicate n passedDefault, r.passed = true) ∧
    (∀ (model : String) (db : DB) (batch : List ReplyR),
      ((process_reply_batch model db
          (batch.zip (List.replicate n passedDefault))).replies.map (fun r => r.id) =
        db.replies.map (fun r => r.id)) ∧
      (process_reply_batch model db
          (batch.zip (List.replicate n passedDefault))).threads = db.threads ∧
      (process_reply_batch model db
          (batch.zip (List.replicate n passedDefault))).notifs = db.notifs) := by
  have h1 : parse_batch_result parsed n =
      Except.ok (List.replicate n passedDefault) := by
    rcases hbad with rfl | ⟨j, rfl, hj⟩
    · rfl
    · cases j with
      | arr elems => simp [Json.isArr] at hj
      | null => rfl
      | bool b => rfl
      | num m => rfl
      | str s => rfl
      | obj fs => rfl
  refine ⟨h1, List.length_replicate n passedDefault, ?_, ?_⟩
  · intro r hr
    rw [List.eq_of_mem_replicate hr]
    rfl
  · intro model db batch
    refine process_reply_batch_all_passed model _ db (fun pr hpr => ?_)
    have := (List.of_mem_zip hpr).2
    rw [List.eq_of_mem_replicate this]
    rfl

/-- C1 witness: a non-JSON response text over a 3-item batch yields three
passes, and applying them to a concrete scan state rejects nothing. -/
theorem parse_failure_fail_open_witness :
    1 ≤ 3 ∧
    parse_batch_result (some (Json.str "oops")) 3 =
      Except.ok (List.replicate 3 passedDefault) ∧
    ((process_reply_batch "model-x" c5Db
        (c5Db.replies.zip (List.replicate 3 passedDefault))).replies.map (fun r => r.id) =
      c5Db.replies.map (fun r => r.id)) :=
  ⟨by decide,
   (parse_failure_fail_open 3 (some (Json.str "oops")) (by decide)
     (Or.inr ⟨Json.str "oops", rfl, rfl⟩)).1,
   ((parse_failure_fail_open 3 (some (Json.str "oops")) (by decide)
     (Or.inr ⟨Json.str "oops", rfl, rfl⟩)).2.2.2 "model-x" c5Db c5Db.replies).1⟩

/-! ## Claim C4: batch positional integrity -/

/-- The integer id a well-formed verdict object declares. -/
def declaredNumId : Json → Option Int
  | Json.obj fields =>
    match objGet fields "id" with
    | some (Json.num k) => some k
    | _ => none
  | _ => none

/-- A response-array entry that is a dict declaring an integer `id`. -/
def wfVerdictObj (item : Json) : Bool := (declaredNumId item).isSome

/-- The verdict an entry declares (objects only; never reached otherwise). -/
def verdictOfItem : Json → ModerationResult
  | Json.obj fields => verdictOfObj fields
  | _ => passedDefault

/-- Spec-side description for the refinement claim: the verdict of the
LAST entry of the response array declaring id `i`, if any (duplicates
resolve last-write-wins). -/
def specLastDeclared : List Json → Int → Option ModerationResult
  | [], _ => none
  | item :: rest, i =>
    match specLastDeclared rest i with
    | some v => some v
    | none =>
      if declaredNumId item == some i then some (verdictOfItem item) else none

/-- On a response array of well-formed verdict objects, `result_map`
construction succeeds and records each entry's declared id and verdict in
order. -/
theorem buildResultMap_wf :
    ∀ (items : List Json), (∀ item ∈ items, wfVerdictObj item = true) →
    buildResultMap items = Except.ok
      (items.map (fun it => ((declaredNumId it).getD 0, verdictOfItem it))) := by
  intro items
  induction items with
  | nil => intro _; rfl
  | cons x rest ih =>
    intro h
    have hx := h x (List.mem_cons_self x rest)
    have hrest : ∀ item ∈ rest, wfVerdictObj item = true :=
      fun item hm => h item (List.mem_cons_of_mem _ hm)
    cases x with
    | obj fields =>
      cases hid : objGet fields "id" with
      | none => simp [wfVerdictObj, declaredNumId, hid] at hx
      | some v =>
        cases v with
        | num k =>
          simp only [List.map_cons, buildResultMap, hid, pyIntOfJson,
                     ih hrest, declaredNumId, verdictOfItem]
          rfl
        | null => simp [wfVerdictObj, declaredNumId, hid] at hx
        | bool b => simp [wfVerdictObj, declaredNumId, hid] at hx
        | str s => simp [wfVerdictObj, declaredNumId, hid] at hx
        | arr es => simp [wfVerdictObj, declaredNumId, hid] at hx
        | obj fs => simp [wfVerdictObj, declaredNumId, hid] at hx
    | null => simp [wfVerdictObj, declaredNumId] at hx
    | bool b => simp [wfVerdictObj, declaredNumId] at hx
    | num m => simp [wfVerdictObj, declaredNumId] at hx
    | str s => simp [wfVerdictObj, declaredNumId] at hx
    | arr es => simp [wfVerdictObj, declaredNumId] at hx

/-- Looking up id `i` in the built map (last binding wins) is exactly the
last entry of the response array declaring id `i`. -/
theorem lookupLast_spec :
    ∀ (items : List Json) (i : Int), (∀ item ∈ items, wfVerdictObj item = true) →
    lookupLast (items.map (fun it => ((declaredNumId it).getD 0, verdictOfItem it))) i =
      specLastDeclared items i := by
  intro items
  induction items with
  | nil => intro i _; rfl
  | cons x rest ih =>
    intro i h
    have hrest : ∀ item ∈ rest, wfVerdictObj item = true :=
      fun item hm => h item (List.mem_cons_of_mem _ hm)
    obtain ⟨k, hk⟩ : ∃ k, declaredNumId x = some k :=
      Option.isSome_iff_exists.mp (h x (List.mem_cons_self x rest))
    simp only [List.map_cons, lookupLast, specLastDeclared, ih i hrest]
    cases hsp : specLastDeclared rest i with
    | some v => rfl
    | none =>
      rw [hk]
      rfl

/-- C4: for a batch of `n` items, a classifier response that is an array of
well-formed verdict objects parses to exactly `n` verdicts, where verdict
`i` (1-based) is the LAST verdict declared for id `i` (duplicates
last-write-wins) and defaults to `passed=true` (category "none") when id
`i` is absent from the array. -/
theorem parse_batch_positional (items : List Json) (n : Nat)
    (hwf : ∀ item ∈ items, wfVerdictObj item = true) :
    ∃ rs, parse_batch_result (some (Json.arr items)) n = Except.ok rs ∧
      rs.length = n ∧
      ∀ i, i < n →
        rs[i]? = some ((specLastDeclared items (Int.ofNat i + 1)).getD passedDefault) := by
  have hb := buildResultMap_wf items hwf
  have hparse : parse_batch_result (some (Json.arr items)) n =
      Except.ok ((List.range n).map (fun i =>
        (lookupLast (items.map (fun it => ((declaredNumId it).getD 0, verdictOfItem it)))
          (Int.ofNat i + 1)).getD passedDefault)) := by
    simp only [parse_batch_result, hb]
  refine ⟨_, hparse, by simp, ?_⟩
  intro i hi
  rw [List.getElem?_map, List.getElem?_range hi]
  simp only [Option.map_some']
  rw [lookupLast_spec items _ hwf]

/-- The response array of the claim's worked example: only id 3 is
declared, and it fails. -/
def c4Items : List Json :=
  [Json.obj [("id", Json.num 3), ("passed", Json.bool false),
             ("category", Json.str "sexual"), ("reason", Json.str "bad")]]

/-- C4 witness: on a 5-item batch whose response declares only
`{id:3, passed:false}`, items 1,2,4,5 default to passed and item 3 is
rejected. -/
theorem parse_batch_positional_witness :
    (∀ item ∈ c4Items, wfVerdictObj item = true) ∧
    (∃ rs, parse_batch_result (some (Json.arr c4Items)) 5 = Except.ok rs ∧
      rs.length = 5 ∧
      ∀ i, i < 5 →
        rs[i]? = some ((specLastDeclared c4Items (Int.ofNat i + 1)).getD passedDefault)) ∧
    (parse_batch_result (some (Json.arr c4Items)) 5).map
        (fun rs => rs.map (fun r => r.passed)) =
      Except.ok [true, true, false, true, true] :=
  ⟨by decide, parse_batch_positional c4Items 5 (by decide), rfl⟩

/-! ## Claim C2: cascade-deleting a rejected thread -/

/-- An optional foreign key that is not in a set of ids differs from every
id of the set. -/
theorem optMem_false_ne {x : Option Nat} {l : List Nat}
    (h : optMem x l = false) : ∀ rid ∈ l, x ≠ some rid := by
  intro rid hrid heq
  cases x with
  | none => cases heq
  | some v =>
    cases heq
    have hm := List.elem_eq_true_of_mem hrid
    simp only [optMem, List.contains] at h
    rw [hm] at h
    cases h

/-- After the `parent_id` clearing pass, no surviving `parent_id` points
into the deleted set. -/
theorem clearParent_parent_not_mem (y : ReplyR) (rids : List Nat) :
    optMem ((if optMem y.parent_id rids then
      { y with parent_id := none } else y).parent_id) rids = false := by
  by_cases h : optMem y.parent_id rids = true
  · rw [if_pos h]
    rfl
  · rw [if_neg h]
    simpa using h

/-- Old notifications: the cascade's two deletes keep exactly those
referencing neither the thread nor its replies, and the null-update leaves
them untouched (their ids differ from the fresh one). -/
theorem cascade_notifs_old (tid nid : Nat) (rids : List Nat) :
    ∀ (l : List NotifR), (∀ n ∈ l, n.id ≠ nid) →
    ((l.filter (fun n => !(n.thread_id == some tid && n.id != nid))).filter
        (fun n => !(optMem n.reply_id rids))).map
      (fun n => if n.id == nid then { n with thread_id := none } else n) =
    l.filter (fun n => !(n.thread_id == some tid) && !(optMem n.reply_id rids)) := by
  intro l
  induction l with
  | nil => intro _; rfl
  | cons x xs ih =>
    intro h
    have hx : x.id ≠ nid := h x (List.mem_cons_self x xs)
    have hxs : ∀ n ∈ xs, n.id ≠ nid := fun n hn => h n (List.mem_cons_of_mem _ hn)
    have hbx : (x.id != nid) = true := by simpa using hx
    have hbx' : (x.id == nid) = false := by simpa using hx
    cases hb1 : x.thread_id == some tid with
    | true =>
      simpa [List.filter_cons, hb1, hbx, -List.filter_filter, -Bool.not_and]
        using ih hxs
    | false =>
      cases hb2 : optMem x.reply_id rids with
      | true =>
        simpa [List.filter_cons, hb1, hbx, hb2, -List.filter_filter, -Bool.not_and]
          using ih hxs
      | false =>
        have hihs := ih hxs
        simp [List.filter_cons, hb1, hbx, hbx', hb2,
              -List.filter_filter, -Bool.not_and] at hihs ⊢
        exact ⟨fun hcon => absurd hcon hx, hihs⟩

/-- The freshly inserted moderation notification survives both deletes
(its id is exempted; its `reply_id` is null) and gets its `thread_id`
nulled by the direct update. -/
theorem cascade_notifs_new (tid nid : Nat) (rids : List Nat) (newN : NotifR)
    (hid : newN.id = nid) (hth : newN.thread_id = some tid)
    (hrep : newN.reply_id = none) :
    (([newN].filter (fun n => !(n.thread_id == some tid && n.id != nid))).filter
        (fun n => !(optMem n.reply_id rids))).map
      (fun n => if n.id == nid then { n with thread_id := none } else n) =
    [{ newN with thread_id := none }] := by
  simp [List.filter_cons, hid, hth, hrep, optMem]

/-- The shape of the notification table after the cascade's two deletes
and the direct `thread_id = NULL` update. -/
theorem cascade_notifs_shape (tid nid : Nat) (rids : List Nat) (newN : NotifR)
    (hid : newN.id = nid) (hth : newN.thread_id = some tid)
    (hrep : newN.reply_id = none)
    (l : List NotifR) (h : ∀ n ∈ l, n.id ≠ nid) :
    (((l ++ [newN]).filter (fun n => !(n.thread_id == some tid && n.id != nid))).filter
        (fun n => !(optMem n.reply_id rids))).map
      (fun n => if n.id == nid then { n with thread_id := none } else n) =
    l.filter (fun n => !(n.thread_id == some tid) && !(optMem n.reply_id rids)) ++
      [{ newN with thread_id := none }] := by
  rw [List.filter_append, List.filter_append, List.map_append,
      cascade_notifs_old tid nid rids l h,
      cascade_notifs_new tid nid rids newN hid hth hrep]

/-- The `parent_id` clearing pass leaves `reply_to_id` untouched. -/
theorem clearParent_replyto (y : ReplyR) (rids : List Nat) :
    (if optMem y.parent_id rids then
      { y with parent_id := none } else y).reply_to_id = y.reply_to_id := by
  split <;> rfl

/-- After the `reply_to_id` clearing pass, no surviving `reply_to_id`
points into the deleted set. -/
theorem clearReplyto_replyto_not_mem (x : ReplyR) (rids : List Nat) :
    optMem ((if optMem x.reply_to_id rids then
      { x with reply_to_id := none } else x).reply_to_id) rids = false := by
  by_cases h : optMem x.reply_to_id rids = true
  · rw [if_pos h]
    rfl
  · rw [if_neg h]
    simpa using h

/-- The ids of a thread's replies (floors and sub-replies). -/
def threadReplyIds (db : DB) (tid : Nat) : List Nat :=
  (db.replies.filter (fun r => r.thread_id == tid)).map (fun r => r.id)

/-- The surviving author-facing moderation notification as it stands at
the end of the cascade (thread reference already nulled). -/
def moderationNotifOf (db : DB) (thread : ThreadR) (reason : String) : NotifR :=
  { id := db.nextNotifId, user_id := thread.author_id,
    ntype := "moderation", thread_id := none, reply_id := none,
    from_user_id := thread.author_id,
    content_preview := "您的帖子「" ++ thread.title.take 50 ++
      "」未通过内容审核，已被删除。原因：" ++ reason,
    is_read := false }

/-- The notification table left by `delete_thread_pre`. -/
theorem delete_thread_pre_notifs (db : DB) (t : ThreadR) (reason : String)
    (hFresh : ∀ n ∈ db.notifs, n.id ≠ db.nextNotifId) :
    (delete_thread_pre db t reason).notifs =
      db.notifs.filter (fun n => !(n.thread_id == some t.id) &&
        !(optMem n.reply_id (threadReplyIds db t.id))) ++
      [moderationNotifOf db t reason] := by
  exact cascade_notifs_shape t.id db.nextNotifId (threadReplyIds db t.id)
    _ rfl rfl rfl db.notifs hFresh

/-- C2 (amended): rejecting a thread inserts the author-facing moderation
notification first, then deletes every Notification referencing the
thread or its replies except that one, clears reply cross-references,
deletes the thread's replies, then sets the surviving notification's
thread reference to null and FINALLY deletes the thread (the null-update
precedes the thread deletion, not the other way around); afterwards no
Reply or Notification row references the deleted thread or its replies,
and exactly one notification with the fresh id survives: type
"moderation", null thread reference, addressed to the thread's author. -/
theorem thread_cascade_completeness (db : DB) (t : ThreadR) (reason : String)
    (hFresh : ∀ n ∈ db.notifs, n.id ≠ db.nextNotifId) :
    delete_thread_and_notify db t reason =
      { delete_thread_pre db t reason with
        threads := (delete_thread_pre db t reason).threads.filter
          (fun th => !(th.id == t.id)) } ∧
    (delete_thread_pre db t reason).threads = db.threads ∧
    moderationNotifOf db t reason ∈ (delete_thread_pre db t reason).notifs ∧
    (delete_thread_and_notify db t reason).threads =
      db.threads.filter (fun th => !(th.id == t.id)) ∧
    (delete_thread_and_notify db t reason).notifs =
      db.notifs.filter (fun n => !(n.thread_id == some t.id) &&
        !(optMem n.reply_id (threadReplyIds db t.id))) ++
      [moderationNotifOf db t reason] ∧
    ((delete_thread_and_notify db t reason).notifs.filter
        (fun n => n.id == db.nextNotifId)) = [moderationNotifOf db t reason] ∧
    (moderationNotifOf db t reason).ntype = "moderation" ∧
    (moderationNotifOf db t reason).thread_id = none ∧
    (moderationNotifOf db t reason).user_id = t.author_id ∧
    (∀ n ∈ (delete_thread_and_notify db t reason).notifs,
      n.thread_id ≠ some t.id ∧
      ∀ rid ∈ threadReplyIds db t.id, n.reply_id ≠ some rid) ∧
    (∀ r ∈ (delete_thread_and_notify db t reason).replies,
      r.thread_id ≠ t.id ∧
      ∀ rid ∈ threadReplyIds db t.id,
        r.parent_id ≠ some rid ∧ r.reply_to_id ≠ some rid) := by
  have hfinalnotifs : (delete_thread_and_notify db t reason).notifs =
      db.notifs.filter (fun n => !(n.thread_id == some t.id) &&
        !(optMem n.reply_id (threadReplyIds db t.id))) ++
      [moderationNotifOf db t reason] :=
    delete_thread_pre_notifs db t reason hFresh
  refine ⟨rfl, rfl, ?_, rfl, hfinalnotifs, ?_, rfl, rfl, rfl, ?_, ?_⟩
  · rw [show (delete_thread_pre db t reason).notifs =
        (delete_thread_and_notify db t reason).notifs from rfl, hfinalnotifs]
    exact List.mem_append_right _ (List.mem_singleton.mpr rfl)
  · rw [hfinalnotifs, List.filter_append]
    have h1 : (db.notifs.filter (fun n => !(n.thread_id == some t.id) &&
        !(optMem n.reply_id (threadReplyIds db t.id)))).filter
        (fun n => n.id == db.nextNotifId) = [] := by
      apply List.filter_eq_nil_iff.mpr
      intro n hn
      have : n ∈ db.notifs := (List.mem_filter.mp hn).1
      simpa using hFresh n this
    rw [h1]
    simp [moderationNotifOf]
  · intro n hn
    rw [hfinalnotifs] at hn
    rcases List.mem_append.mp hn with hl | hr
    · have hq := (List.mem_filter.mp hl).2
      rcases Bool.and_eq_true_iff.mp hq with ⟨hA, hB⟩
      have hq1 : (n.thread_id == some t.id) = false := by simpa using hA
      have hq2 : optMem n.reply_id (threadReplyIds db t.id) = false := by
        simpa using hB
      exact ⟨by simpa using hq1, optMem_false_ne hq2⟩
    · rw [List.mem_singleton.mp hr]
      exact ⟨by simp [moderationNotifOf], fun rid _ => by simp [moderationNotifOf]⟩
  · intro r hr
    have hr' : r ∈ ((db.replies.map (fun x =>
        if optMem x.reply_to_id (threadReplyIds db t.id) then
          { x with reply_to_id := none } else x)).map (fun y =>
        if optMem y.parent_id (threadReplyIds db t.id) then
          { y with parent_id := none } else y)).filter
        (fun z => !(z.thread_id == t.id)) := hr
    have hth := (List.mem_filter.mp hr').2
    obtain ⟨y, hy, rfl⟩ := List.mem_map.mp (List.mem_filter.mp hr').1
    refine ⟨by simpa using hth, fun rid hrid => ?_⟩
    refine ⟨optMem_false_ne (clearParent_parent_not_mem y _) rid hrid, ?_⟩
    rw [clearParent_replyto]
    obtain ⟨x, hxm, rfl⟩ := List.mem_map.mp hy
    exact optMem_false_ne (clearReplyto_replyto_not_mem x _) rid hrid

/-- A thread about to be rejected. -/
def c2Thread : ThreadR :=
  { id := 1, author_id := 7, category := "chat", title := "T", content := "C",
    reply_count := 2, last_reply_at := 0, moderated := false }

/-- A database with the thread, a floor, a sub-reply, a cross-referencing
reply in another thread, and a notification referencing the floor. -/
def c2Db : DB :=
  { threads := [c2Thread],
    replies := [
      { id := 10, thread_id := 1, author_id := 8, floor_num := some 2,
        content := "r", parent_id := none, reply_to_id := none, moderated := true },
      { id := 11, thread_id := 1, author_id := 9, floor_num := none,
        content := "s", parent_id := some 10, reply_to_id := none, moderated := true },
      { id := 20, thread_id := 2, author_id := 9, floor_num := some 2,
        content := "o", parent_id := none, reply_to_id := some 10, moderated := true }],
    notifs := [{ id := 1, user_id := 7, ntype := "reply", thread_id := some 1,
                 reply_id := some 10, from_user_id := 8, content_preview := "r",
                 is_read := false }],
    logs := [], store := [], nextThreadId := 3, nextReplyId := 30, nextNotifId := 5 }

/-- C2 counterexample: in the state just before the cascade's final step,
the thread row still exists while the surviving notification's thread
reference is ALREADY null, and the final step is exactly the thread
deletion — refuting the claim's "then deletes the thread, and finally
sets the surviving notification's thread reference to null" ordering. -/
theorem thread_cascade_order_counterexample :
    (delete_thread_pre c2Db c2Thread "bad").threads.filter
      (fun th => th.id == c2Thread.id) ≠ [] ∧
    ((delete_thread_pre c2Db c2Thread "bad").notifs.filter
      (fun n => n.id == c2Db.nextNotifId)).map (fun n => n.thread_id) = [none] ∧
    delete_thread_and_notify c2Db c2Thread "bad" =
      { delete_thread_pre c2Db c2Thread "bad" with
        threads := (delete_thread_pre c2Db c2Thread "bad").threads.filter
          (fun th => !(th.id == c2Thread.id)) } :=
  ⟨by decide, by decide, rfl⟩

/-- C2 witness: the amended theorem applied to the concrete database. -/
theorem thread_cascade_completeness_witness :
    (∀ n ∈ c2Db.notifs, n.id ≠ c2Db.nextNotifId) ∧
    (delete_thread_and_notify c2Db c2Thread "bad").threads =
      c2Db.threads.filter (fun th => !(th.id == c2Thread.id)) ∧
    ((delete_thread_and_notify c2Db c2Thread "bad").notifs.filter
      (fun n => n.id == c2Db.nextNotifId)) = [moderationNotifOf c2Db c2Thread "bad"] :=
  ⟨by decide,
   (thread_cascade_completeness c2Db c2Thread "bad" (by decide)).2.2.2.1,
   (thread_cascade_completeness c2Db c2Thread "bad" (by decide)).2.2.2.2.2.1⟩

/-! ## Claim C3: floor allocation -/

/-- The maximum of the consecutive floor numbers `a.. a+j`. -/
theorem listMaxNat_range' : ∀ (j a : Nat),
    listMaxNat (List.range' a (j + 1)) = some (a + j) := by
  intro j
  induction j with
  | zero => intro a; rfl
  | succ m ih =>
    intro a
    have step : listMaxNat (List.range' a (m + 1 + 1)) =
        match listMaxNat (List.range' (a + 1) (m + 1)) with
        | none => some a
        | some mm => some (max a mm) := rfl
    rw [step, ih (a + 1)]
    show some (max a (a + 1 + m)) = some (a + (m + 1))
    rw [Nat.max_eq_right (by omega : a ≤ a + 1 + m)]
    exact congrArg some (by omega)

/-- `first()` on a query with at least one hit returns a hit. -/
theorem find_of_exists {p : ThreadR → Bool} {l : List ThreadR}
    (h : ∃ t ∈ l, p t = true) : ∃ u, l.find? p = some u ∧ p u = true := by
  have hs : (l.find? p).isSome := by
    rw [List.find?_isSome]
    obtain ⟨t, ht, hp⟩ := h
    exact ⟨t, ht, hp⟩
  obtain ⟨u, hu⟩ := Option.isSome_iff_exists.mp hs
  exact ⟨u, hu, List.find?_some hu⟩

/-- A fold whose step touches neither Reply nor Thread rows (such as the
mention-notification inserts) preserves both tables. -/
theorem foldl_preserves_rows {α : Type} (f : DB → α → DB)
    (hf : ∀ d x, (f d x).replies = d.replies ∧ (f d x).threads = d.threads) :
    ∀ (l : List α) (d : DB),
      (l.foldl f d).replies = d.replies ∧ (l.foldl f d).threads = d.threads := by
  intro l
  induction l with
  | nil => exact fun d => ⟨rfl, rfl⟩
  | cons x xs ih =>
    intro d
    have h1 := hf d x
    have h2 := ih (f d x)
    exact ⟨h2.1.trans h1.1, h2.2.trans h1.2⟩

/-- One locked reply creation on a thread whose floors are exactly
`2..j+1`: it succeeds, allocates floor `j+2` (one plus the current
maximum, or 2 when none exists), and leaves the thread's `reply_count`
at `j+1`. -/
theorem create_reply_step (db : DB) (tid author : Nat) (content : String)
    (cfg : ModeratorConfig) (now : Nat) (j : Nat)
    (hT : ∃ t ∈ db.threads, (t.id == tid) = true)
    (hF : floorsOf db tid = List.range' 2 j) :
    ∃ db', create_reply db db tid author content cfg now [] =
        CreateReplyOutcome.created db' (j + 2) ∧
      floorsOf db' tid = List.range' 2 (j + 1) ∧
      (∃ t ∈ db'.threads, (t.id == tid) = true) ∧
      (∀ t ∈ db'.threads, (t.id == tid) = true → t.reply_count = j + 1) := by
  obtain ⟨u, hfind, hu⟩ := find_of_exists hT
  have hnext : (match listMaxNat (floorsOf db tid) with
      | none => 2
      | some m => if m = 0 then 2 else m + 1) = j + 2 := by
    rw [hF]
    cases j with
    | zero => rfl
    | succ m =>
      rw [listMaxNat_range' m 2]
      show (if 2 + m = 0 then 2 else (2 + m) + 1) = m + 1 + 2
      rw [if_neg (by omega : ¬(2 + m = 0))]
      omega
  unfold create_reply
  rw [hfind]
  dsimp only
  rw [hnext]
  refine ⟨_, rfl, ?_, ?_, ?_⟩
  all_goals simp only [List.foldl_nil]
  · have hsplit : floorsOf
        (addNotif
          { db with
            threads := db.threads.map (fun t =>
              if (t.id == tid) = true then
                { t with reply_count := j + 2 - 1, last_reply_at := now }
              else t)
            replies := db.replies ++
              [{ id := db.nextReplyId, thread_id := tid, author_id := author,
                 floor_num := some (j + 2), content := content,
                 parent_id := none, reply_to_id := none,
                 moderated := !(cfg.enabled && cfg.api_key != "" && cfg.api_base != "") }]
            nextReplyId := db.nextReplyId + 1 }
          u.author_id author "reply" (some tid) (some db.nextReplyId) content) tid =
        floorsOf db tid ++ [j + 2] := by
      show ((db.replies ++ [_]).filter _).filterMap _ = _
      rw [List.filter_append, List.filterMap_append]
      congr 1
      simp
    rw [hsplit, hF, show j + 2 = 2 + j from by omega, ← List.range'_1_concat]
  · obtain ⟨t0, ht0, htid⟩ := hT
    refine ⟨_, List.mem_map_of_mem _ ht0, ?_⟩
    simp only [htid, if_true]
  · intro t' ht' htid'
    obtain ⟨t0, ht0, rfl⟩ := List.mem_map.mp ht'
    by_cases h0 : (t0.id == tid) = true
    · simp only [h0, if_true]
      show j + 2 - 1 = j + 1
      omega
    · rw [if_neg h0] at htid'
      exact absurd htid' h0

/-- Invariant of the serialized creation sequence: starting from floors
`2..j+1`, `K` creations extend them to `2..j+K+1` and leave `reply_count`
equal to `j+K`. -/
theorem create_replies_seq_invariant (tid author : Nat) (content : String)
    (cfg : ModeratorConfig) (now : Nat) :
    ∀ (K : Nat) (db : DB) (j : Nat),
    (∃ t ∈ db.threads, (t.id == tid) = true) →
    floorsOf db tid = List.range' 2 j →
    (1 ≤ j → ∀ t ∈ db.threads, (t.id == tid) = true → t.reply_count = j) →
    floorsOf (create_replies_seq tid author content cfg now K db) tid =
      List.range' 2 (j + K) ∧
    (∃ t ∈ (create_replies_seq tid author content cfg now K db).threads,
      (t.id == tid) = true) ∧
    (1 ≤ j + K → ∀ t ∈ (create_replies_seq tid author content cfg now K db).threads,
      (t.id == tid) = true → t.reply_count = j + K) := by
  intro K
  induction K with
  | zero =>
    intro db j hT hF hRC
    exact ⟨hF, hT, hRC⟩
  | succ k ih =>
    intro db j hT hF hRC
    obtain ⟨db', hstep, hF', hT', hRC'⟩ :=
      create_reply_step db tid author content cfg now j hT hF
    have hseq : create_replies_seq tid author content cfg now (k + 1) db =
        create_replies_seq tid author content cfg now k db' := by
      simp only [create_replies_seq, hstep]
    rw [hseq]
    obtain ⟨a, b, c⟩ := ih db' (j + 1) hT' hF' (fun _ => hRC')
    refine ⟨?_, b, ?_⟩
    · rw [a]
      congr 1
      omega
    · intro hk t ht htid
      rw [c (by omega) t ht htid]
      omega

/-- C3: starting from a thread with no floors, `K` reply creations (the
`FOR UPDATE` row lock serializes concurrent ones into exactly such a
sequence) yield exactly the floor numbers `2..K+1`, with no duplicates
and no gaps — each new floor being one plus the current maximum, or 2
when none exists — and afterwards the thread's `reply_count` equals the
final number of floors. -/
theorem floor_allocation_sequential (db : DB) (tid author : Nat)
    (content : String) (cfg : ModeratorConfig) (now : Nat) (K : Nat)
    (hT : ∃ t ∈ db.threads, (t.id == tid) = true)
    (hF : floorsOf db tid = []) :
    floorsOf (create_replies_seq tid author content cfg now K db) tid =
      List.range' 2 K ∧
    (floorsOf (create_replies_seq tid author content cfg now K db) tid).Nodup ∧
    (1 ≤ K → ∀ t ∈ (create_replies_seq tid author content cfg now K db).threads,
      (t.id == tid) = true →
      t.reply_count =
        (floorsOf (create_replies_seq tid author content cfg now K db) tid).length) := by
  obtain ⟨a, b, c⟩ := create_replies_seq_invariant tid author content cfg now K db 0
    hT (by simpa using hF) (fun h => absurd h (by omega))
  have ha : floorsOf (create_replies_seq tid author content cfg now K db) tid =
      List.range' 2 K := by
    rw [a]
    congr 1
    omega
  refine ⟨ha, ?_, ?_⟩
  · rw [ha]
    exact List.nodup_range' ..
  · intro hK t ht htid
    rw [ha, List.length_range']
    rw [c (by omega) t ht htid]
    omega

/-- A fresh thread with no floors. -/
def c3Thread : ThreadR :=
  { id := 1, author_id := 7, category := "chat", title := "t", content := "c",
    reply_count := 0, last_reply_at := 0, moderated := true }

/-- A database holding only that thread. -/
def c3Db : DB :=
  { threads := [c3Thread], replies := [], notifs := [], logs := [], store := [],
    nextThreadId := 2, nextReplyId := 10, nextNotifId := 100 }

/-- C3 witness: three creations on the fresh thread yield floors 2,3,4
and `reply_count = 3`. -/
theorem floor_allocation_sequential_witness :
    (∃ t ∈ c3Db.threads, (t.id == 1) = true) ∧
    floorsOf c3Db 1 = [] ∧
    floorsOf (create_replies_seq 1 9 "hi" c8Cfg 0 3 c3Db) 1 = List.range' 2 3 ∧
    (1 ≤ 3 → ∀ t ∈ (create_replies_seq 1 9 "hi" c8Cfg 0 3 c3Db).threads,
      (t.id == 1) = true →
      t.reply_count = (floorsOf (create_replies_seq 1 9 "hi" c8Cfg 0 3 c3Db) 1).length) :=
  ⟨⟨c3Thread, by decide, by decide⟩, rfl,
   (floor_allocation_sequential c3Db 1 9 "hi" c8Cfg 0 3
     ⟨c3Thread, by decide, by decide⟩ rfl).1,
   (floor_allocation_sequential c3Db 1 9 "hi" c8Cfg 0 3
     ⟨c3Thread, by decide, by decide⟩ rfl).2.2⟩
